import Mathlib

/-!
Shallow embedding of `receiver/prometheusreceiver/metrics_receiver.go`
(the Prometheus receiver's startup/shutdown orchestration) and proofs of
the specification claims about it.

The Go file orchestrates two external subsystems (the Prometheus
discovery manager and scrape manager).  Their `ApplyConfig`/`Run`
behaviours are inputs of the model (`SubsystemBehavior`, `Option String`
run results); the orchestration logic itself — ordering of calls, label
injection, context derivation, start-time-strategy selection, error
returns, launched goroutines — is translated statement by statement from
the source.  Goroutine launches are recorded as events/tasks; the bodies
of the two launched goroutines are modelled by `discoveryLoopBody` and
`scrapeLoopBody`, mapping the `Run()` result to the host-visible effects
(log + `ReportFatalError`).
-/

/-- Go `context.Context`, restricted to what the receiver builds: the
background root and cancellable children (`context.WithCancel`), each
cancellable context identified by the token its `CancelFunc` fires. -/
inductive Ctx where
  | background : Ctx
  | withCancel : Ctx → Nat → Ctx
deriving DecidableEq, Repr

/-- A context is cancelled (Done) iff its own cancel token has been fired
or an ancestor is cancelled. `fired` is the set of tokens whose
`CancelFunc` has been invoked. -/
def Ctx.isCancelled : Ctx → List Nat → Bool
  | .background, _ => false
  | .withCancel parent tok, fired => fired.contains tok || parent.isCancelled fired

/-- All cancel tokens appearing in a context (itself and its ancestors). -/
def Ctx.tokens : Ctx → List Nat
  | .background => []
  | .withCancel parent tok => tok :: parent.tokens

/-- Prometheus relabel actions (`relabel.Action`); the receiver only ever
constructs `replace`. -/
inductive RelabelAction where
  | replace | keep | drop | hashmod | labelmap | labeldrop | labelkeep
deriving DecidableEq, Repr

/-- Model of `relabel.Regexp`: holds the source pattern string. -/
structure Regexp where
  pattern : String
deriving DecidableEq, Repr

/-- Model of `relabel.MustNewRegexp`: wraps the pattern. -/
def MustNewRegexp (s : String) : Regexp := ⟨s⟩

/-- Matching semantics of the external relabel library for the one
pattern class the receiver uses: Prometheus fully anchors relabel
regexes, so an anchored literal pattern `^lit$` (or a bare literal with
no metacharacters) matches exactly the string `lit`. -/
def Regexp.matchString (re : Regexp) (s : String) : Bool :=
  let p := re.pattern.data
  let p := if p.head? = some '^' then p.tail else p
  let p := if p.getLast? = some '$' then p.dropLast else p
  p == s.data

/-- One entry of `discovery.Configs`; its contents are opaque to the
receiver, which only forwards them keyed by job name. -/
structure DiscoveryConfig where
  raw : String
deriving DecidableEq, Repr

/-- Model of `relabel.Config`, restricted to the fields the receiver sets. -/
structure RelabelConfig where
  action : RelabelAction
  regex : Regexp
  replacement : String
  targetLabel : String
deriving DecidableEq, Repr

/-- Model of `config.ScrapeConfig`, restricted to the fields the receiver reads
or writes: `JobName`, `ServiceDiscoveryConfigs`, `RelabelConfigs`. -/
structure ScrapeConfig where
  jobName : String
  serviceDiscoveryConfigs : List DiscoveryConfig
  relabelConfigs : List RelabelConfig
deriving DecidableEq, Repr

/-- Model of `config.Config` (Prometheus side), restricted to `ScrapeConfigs`. -/
structure PrometheusConfig where
  scrapeConfigs : List ScrapeConfig
deriving DecidableEq, Repr

/-- The receiver's `Config`: the embedded Prometheus configuration, the
start-time knobs, and the receiver name (`cfg.Name()`). -/
structure Config where
  prometheusConfig : PrometheusConfig
  useStartTimeMetric : Bool
  startTimeMetricRegex : String
  name : String
deriving DecidableEq, Repr

/-- Modelled from the spec: `internal.MagicScrapeJobLabel` (the internal
package is not under src/), the single reserved, namespaced label key
used to carry job identity across relabeling.  The claims only compare
against this constant, so its exact string is immaterial. -/
def MagicScrapeJobLabel : String := "__scrape_job__"

/-- Modelled from the spec: `internal.JobsMap` (internal package not
under src/), the start-time side-table keyed by job+instance+metric
identity; the model records only its construction parameter, the
expiration horizon in nanoseconds. -/
structure JobsMap where
  gcInterval : Nat
deriving DecidableEq, Repr

/-- Modelled from the spec: `internal.NewJobsMap` constructs the
side-table with the given expiration horizon. -/
def NewJobsMap (gcInterval : Nat) : JobsMap := ⟨gcInterval⟩

/-- Go `time.Minute` in nanoseconds. -/
def timeMinute : Nat := 60000000000

/-- Model of `pReceiver`: the receiver state.  `consumer` is an opaque handle to
the downstream `consumer.MetricsConsumer`; the logger is omitted (its
only observable effects appear in the loop-body events).  `cancelFunc`
is `none` for Go's zero value `nil`. -/
structure pReceiver where
  cfg : Config
  consumer : Nat
  cancelFunc : Option Nat
deriving DecidableEq, Repr

/-- Model of `newPrometheusReceiver`: builds the receiver; `cancelFunc` is left at
its zero value `nil`. -/
def newPrometheusReceiver (cfg : Config) (next : Nat) : pReceiver :=
  { cfg := cfg, consumer := next, cancelFunc := none }

/-- Model of `discovery.Manager`, restricted to what the receiver observes: the
context it was constructed with (`discovery.NewManager(discoveryCtx, logger)`). -/
structure DiscoveryManager where
  ctx : Ctx
deriving DecidableEq, Repr

/-- The discovery manager's target-sync stream, identified by its
producing manager (`discoveryManager.SyncCh()`): single producer. -/
structure SyncStream where
  source : DiscoveryManager
deriving DecidableEq, Repr

/-- Model of `discoveryManager.SyncCh()`. -/
def DiscoveryManager.syncCh (m : DiscoveryManager) : SyncStream := ⟨m⟩

/-- Arguments of `internal.NewOcaStore(ctx, consumer, logger, jobsMap,
useStartTimeMetric, startTimeMetricRegex, name)` as constructed by
`Start` (logger omitted as opaque). -/
structure OcaStoreArgs where
  ctx : Ctx
  sink : Nat
  jobsMap : Option JobsMap
  useStartTimeMetric : Bool
  startTimeMetricRegex : String
  receiverName : String
deriving DecidableEq, Repr

/-- The effectful steps `Start` performs, in program order; used to state
ordering properties.  Goroutine launches appear as `launch*` events. -/
inductive StartEvent where
  | storeCancelFunc
  | injectJobLabels
  | constructDiscoveryManager
  | applyDiscoveryConfig
  | launchDiscoveryLoop
  | constructOcaStore
  | constructScrapeManager
  | applyScrapeConfig
  | launchScrapeLoop
deriving DecidableEq, Repr

/-- The two background run loops `Start` may launch. -/
inductive TaskKind where
  | discoveryLoop
  | scrapeLoop
deriving DecidableEq, Repr

/-- Results of the two synchronous `ApplyConfig` calls, supplied by the
external discovery and scrape subsystems (`some e` = error `e`). -/
structure SubsystemBehavior where
  discoveryApplyErr : Option String
  scrapeApplyErr : Option String
deriving DecidableEq, Repr

/-- Everything observable about one `Start` invocation: the mutated
receiver, the returned error (`none` = nil), the ordered event trace,
the goroutines left running on return, and the constructed values. -/
structure StartResult where
  receiver : pReceiver
  ret : Option String
  trace : List StartEvent
  launched : List TaskKind
  discoveryCtx : Ctx
  discoveryCfg : List (String × List DiscoveryConfig)
  jobsMap : Option JobsMap
  ocaStore : Option OcaStoreArgs
  scrapeSyncStream : Option SyncStream
deriving DecidableEq, Repr

/-- The relabel rule `Start` appends for a job (the `&relabel.Config{...}`
literal at lines 60-65): replace action, regex `^instance$`, replacement
the job name, target label the reserved job-identity label. -/
def jobNameRelabelRule (jobName : String) : RelabelConfig :=
  { action := RelabelAction.replace
    regex := MustNewRegexp "^instance$"
    replacement := jobName
    targetLabel := MagicScrapeJobLabel }

/-- The label-injection loop of `Start` (lines 59-66): appends the
job-name rule to every scrape config's relabel rules, in place. -/
def injectJobNameRules (cfgs : List ScrapeConfig) : List ScrapeConfig :=
  cfgs.map fun sc =>
    { sc with relabelConfigs := sc.relabelConfigs ++ [jobNameRelabelRule sc.jobName] }

/-- Model of `pReceiver.Start(ctx, host)`.  `ctx` is the caller-supplied context,
`freshToken` the token of the fresh `context.WithCancel(context.Background())`
cancel function, `beh` the subsystem `ApplyConfig` outcomes.  Translated
line by line from lines 52-101 of the source. -/
def pReceiver.Start (r : pReceiver) (ctx : Ctx) (freshToken : Nat)
    (beh : SubsystemBehavior) : StartResult :=
  let discoveryCtx : Ctx := Ctx.withCancel Ctx.background freshToken
  let r1 : pReceiver := { r with cancelFunc := some freshToken }
  let newScrapeConfigs := injectJobNameRules r1.cfg.prometheusConfig.scrapeConfigs
  let r2 : pReceiver := { r1 with cfg := { r1.cfg with prometheusConfig := ⟨newScrapeConfigs⟩ } }
  let discoveryManager : DiscoveryManager := ⟨discoveryCtx⟩
  let discoveryCfg := newScrapeConfigs.map fun sc => (sc.jobName, sc.serviceDiscoveryConfigs)
  let trace0 : List StartEvent :=
    [StartEvent.storeCancelFunc, StartEvent.injectJobLabels,
     StartEvent.constructDiscoveryManager, StartEvent.applyDiscoveryConfig]
  match beh.discoveryApplyErr with
  | some e =>
      { receiver := r2, ret := some e, trace := trace0, launched := [],
        discoveryCtx := discoveryCtx, discoveryCfg := discoveryCfg,
        jobsMap := none, ocaStore := none, scrapeSyncStream := none }
  | none =>
      let trace1 := trace0 ++ [StartEvent.launchDiscoveryLoop]
      let jobsMap : Option JobsMap :=
        if !r2.cfg.useStartTimeMetric then some (NewJobsMap (2 * timeMinute)) else none
      let ocaStore : OcaStoreArgs :=
        { ctx := ctx, sink := r2.consumer, jobsMap := jobsMap,
          useStartTimeMetric := r2.cfg.useStartTimeMetric,
          startTimeMetricRegex := r2.cfg.startTimeMetricRegex,
          receiverName := r2.cfg.name }
      let trace2 := trace1 ++
        [StartEvent.constructOcaStore, StartEvent.constructScrapeManager,
         StartEvent.applyScrapeConfig]
      match beh.scrapeApplyErr with
      | some e =>
          { receiver := r2, ret := some e, trace := trace2,
            launched := [TaskKind.discoveryLoop],
            discoveryCtx := discoveryCtx, discoveryCfg := discoveryCfg,
            jobsMap := jobsMap, ocaStore := some ocaStore, scrapeSyncStream := none }
      | none =>
          { receiver := r2, ret := none,
            trace := trace2 ++ [StartEvent.launchScrapeLoop],
            launched := [TaskKind.discoveryLoop, TaskKind.scrapeLoop],
            discoveryCtx := discoveryCtx, discoveryCfg := discoveryCfg,
            jobsMap := jobsMap, ocaStore := some ocaStore,
            scrapeSyncStream := some discoveryManager.syncCh }

/-- Host-visible effects of a run loop's goroutine body: the error log
and the `host.ReportFatalError` call. -/
inductive HostEvent where
  | logError : String → String → HostEvent
  | reportFatalError : String → HostEvent
deriving DecidableEq, Repr

/-- Whether a host event is a `ReportFatalError` invocation. -/
def HostEvent.isReportFatal : HostEvent → Bool
  | .reportFatalError _ => true
  | _ => false

/-- Body of the discovery goroutine (lines 76-81), as a function of the
`discoveryManager.Run()` result: a non-nil error is logged and reported
fatal; a nil return does nothing. -/
def discoveryLoopBody (runResult : Option String) : List HostEvent :=
  match runResult with
  | some err => [HostEvent.logError "Discovery manager failed" err,
                 HostEvent.reportFatalError err]
  | none => []

/-- Body of the scrape goroutine (lines 94-99), as a function of the
`scrapeManager.Run(syncCh)` result. -/
def scrapeLoopBody (runResult : Option String) : List HostEvent :=
  match runResult with
  | some err => [HostEvent.logError "Scrape manager failed" err,
                 HostEvent.reportFatalError err]
  | none => []

/-- Model of `pReceiver.Shutdown(ctx)` (lines 104-107): calls `r.cancelFunc()` and
returns nil.  `none` models the Go runtime panic from invoking a nil
`CancelFunc`; otherwise the result records the cancel tokens invoked (in
order), the returned error (`none` = nil), and the receiver state after
the call, which `Shutdown` does not modify.  The function depends on the
receiver state alone — it takes no input from, and does not wait on, the
background loops. -/
def pReceiver.Shutdown (r : pReceiver) : Option (List Nat × Option String × pReceiver) :=
  match r.cancelFunc with
  | none => none
  | some t => some ([t], none, r)

/-- Two consecutive `Shutdown` calls on the same receiver: the second
runs on the state left by the first. -/
def shutdownTwice (r : pReceiver) : Option (List Nat × Option String × pReceiver) :=
  (r.Shutdown).bind fun res => res.2.2.Shutdown

/-- Repeated `Start` invocations threaded through the receiver state,
one triple (caller context, fresh cancel token, subsystem outcomes) per
call. -/
def iterateStart (r : pReceiver) : List (Ctx × Nat × SubsystemBehavior) → pReceiver
  | [] => r
  | (c, t, b) :: rest => iterateStart (r.Start c t b).receiver rest

/-- Concrete fixtures used by witnesses and counterexamples. -/
def sampleJob : ScrapeConfig :=
  { jobName := "demo", serviceDiscoveryConfigs := [⟨"static"⟩], relabelConfigs := [] }

def sampleConfig : Config :=
  { prometheusConfig := ⟨[sampleJob]⟩, useStartTimeMetric := false,
    startTimeMetricRegex := "", name := "prometheus" }

def sampleReceiver : pReceiver := newPrometheusReceiver sampleConfig 0

/-! ## Helper lemmas -/

/-- The receiver state after any `Start` call: the fresh cancel token is
stored and the job-name rule is appended to every scrape config,
regardless of which branch `Start` returns through. -/
theorem Start_receiver_eq (r : pReceiver) (c : Ctx) (t : Nat) (b : SubsystemBehavior) :
    (r.Start c t b).receiver =
      { r with cancelFunc := some t,
               cfg := { r.cfg with prometheusConfig :=
                 ⟨injectJobNameRules r.cfg.prometheusConfig.scrapeConfigs⟩ } } := by
  rcases b with ⟨d, s⟩
  cases d <;> cases s <;> rfl

/-- Firing a token that does not occur in a context leaves its
cancellation status unchanged. -/
theorem Ctx.isCancelled_cons_of_not_mem (ctx : Ctx) (t : Nat)
    (h : ctx.tokens.contains t = false) (fired : List Nat) :
    ctx.isCancelled (t :: fired) = ctx.isCancelled fired := by
  induction ctx with
  | background => rfl
  | withCancel parent tok ih =>
      simp only [Ctx.tokens, List.contains_cons, Bool.or_eq_false_iff] at h
      have htok : tok ≠ t := by
        intro he
        simp [he] at h
      simp only [Ctx.isCancelled, List.contains_cons, ih h.2]
      simp [beq_eq_false_iff_ne.mpr htok]

/-! ## Claim theorems -/

/-- Claim C2: for each of the two background run loops (discovery and
scrape), `host.ReportFatalError` is invoked exactly once if the loop's
`Run` returns a non-nil error and never otherwise (so a nil,
cancellation-triggered return never triggers the fatal notification),
and any reported error is exactly the error `Run` returned — the loop
body performs no retry. -/
theorem runLoop_reportsFatal_iff (res : Option String) :
    ((discoveryLoopBody res).countP HostEvent.isReportFatal
        = if res.isSome then 1 else 0)
  ∧ ((scrapeLoopBody res).countP HostEvent.isReportFatal
        = if res.isSome then 1 else 0)
  ∧ (∀ e : String, HostEvent.reportFatalError e ∈ discoveryLoopBody res → res = some e)
  ∧ (∀ e : String, HostEvent.reportFatalError e ∈ scrapeLoopBody res → res = some e) := by
  cases res <;>
    simp [discoveryLoopBody, scrapeLoopBody, HostEvent.isReportFatal, List.countP_cons]

/-- Witness for C2 at the concrete result `some "boom"`. -/
theorem runLoop_reportsFatal_iff_witness :
    (some "boom" : Option String) = some "boom" :=
  (runLoop_reportsFatal_iff (some "boom")).2.2.1 "boom" (by simp [discoveryLoopBody])

/-- Claim C3: after `Start`'s label-injection loop, every job's
relabeling rule sequence is its original sequence with exactly one rule
appended at the end, whose action is `replace`, whose regex matches the
`instance` label, whose target label is the reserved job-identity label,
and whose replacement is that job's exact name — for any job name. -/
theorem Start_appends_job_identity_rule (r : pReceiver) (c : Ctx) (t : Nat)
    (b : SubsystemBehavior) :
    ((r.Start c t b).receiver.cfg.prometheusConfig.scrapeConfigs
      = r.cfg.prometheusConfig.scrapeConfigs.map fun sc =>
          { sc with relabelConfigs := sc.relabelConfigs ++ [jobNameRelabelRule sc.jobName] })
  ∧ ∀ jobName : String,
      (jobNameRelabelRule jobName).action = RelabelAction.replace
    ∧ (jobNameRelabelRule jobName).regex.matchString "instance" = true
    ∧ (jobNameRelabelRule jobName).targetLabel = MagicScrapeJobLabel
    ∧ (jobNameRelabelRule jobName).replacement = jobName := by
  constructor
  · rw [Start_receiver_eq]
    rfl
  · intro jobName
    refine ⟨rfl, ?_, rfl, rfl⟩
    show Regexp.matchString (MustNewRegexp "^instance$") "instance" = true
    decide

/-- Claim C6: `Start` derives the discovery context from a fresh
background root — not the caller-supplied context `c` — stores the
corresponding cancel token on the receiver, and that token is the one
and only way the discovery context becomes cancelled. -/
theorem Start_context_isolation (r : pReceiver) (c : Ctx) (t : Nat) (b : SubsystemBehavior) :
    (r.Start c t b).discoveryCtx = Ctx.withCancel Ctx.background t
  ∧ (r.Start c t b).receiver.cancelFunc = some t
  ∧ ∀ fired : List Nat,
      ((r.Start c t b).discoveryCtx).isCancelled fired = fired.contains t := by
  rcases b with ⟨d, s⟩
  refine ⟨?_, ?_, ?_⟩ <;> cases d <;> cases s <;>
    simp [pReceiver.Start, Ctx.isCancelled]

/-- Claim C8: a receiver on which `Start` was never invoked still has the
zero-value `nil` cancel function, so `Shutdown` panics on it; `Shutdown`
succeeds exactly when a cancel function has been stored. -/
theorem Shutdown_panics_without_Start (cfg : Config) (next : Nat) :
    (newPrometheusReceiver cfg next).cancelFunc = none
  ∧ (newPrometheusReceiver cfg next).Shutdown = none
  ∧ ∀ r : pReceiver, (r.Shutdown).isSome = r.cancelFunc.isSome := by
  refine ⟨rfl, rfl, fun r => ?_⟩
  rcases r with ⟨rcfg, rconsumer, cf⟩
  cases cf <;> rfl

/-- Counterexample to claim C1 as stated: with a configuration the scrape
subsystem rejects (discovery accepts), `Start` returns the error but the
discovery run loop has already been launched and is left running. -/
theorem scrape_applyConfig_failure_leaves_discovery_loop :
    (sampleReceiver.Start Ctx.background 0 ⟨none, some "bad scrape config"⟩).ret
        = some "bad scrape config"
  ∧ (sampleReceiver.Start Ctx.background 0 ⟨none, some "bad scrape config"⟩).launched
        = [TaskKind.discoveryLoop]
  ∧ (sampleReceiver.Start Ctx.background 0 ⟨none, some "bad scrape config"⟩).launched
        ≠ [] := by
  refine ⟨rfl, rfl, ?_⟩
  intro hc
  simp [pReceiver.Start] at hc

/-- Claim C1 (amended): if the discovery `ApplyConfig` fails, `Start`
returns that error synchronously and no background task has been
launched; if the scrape `ApplyConfig` fails, `Start` returns that error
synchronously and the scrape loop is not launched, but the discovery run
loop has already been launched. -/
theorem Start_applyConfig_failure_behavior (r : pReceiver) (c : Ctx) (t : Nat)
    (e : String) (s : Option String) :
    ((r.Start c t ⟨some e, s⟩).ret = some e
      ∧ (r.Start c t ⟨some e, s⟩).launched = [])
  ∧ ((r.Start c t ⟨none, some e⟩).ret = some e
      ∧ (r.Start c t ⟨none, some e⟩).launched = [TaskKind.discoveryLoop]) :=
  ⟨⟨rfl, rfl⟩, rfl, rfl⟩

/-- Claim C4: when discovery configuration is accepted, the start-time
side-table is built with a two-minute expiration horizon exactly when
`UseStartTimeMetric` is not set; otherwise it stays nil, and the
appender store receives the configured start-time-metric regex and the
flag, the choice made once from the receiver's configuration. -/
theorem Start_startTimeStrategy (r : pReceiver) (c : Ctx) (t : Nat)
    (b : SubsystemBehavior) (h : b.discoveryApplyErr = none) :
    ((r.Start c t b).jobsMap
        = if r.cfg.useStartTimeMetric then none else some (NewJobsMap (2 * timeMinute)))
  ∧ ∃ oca : OcaStoreArgs, (r.Start c t b).ocaStore = some oca
      ∧ oca.jobsMap = (r.Start c t b).jobsMap
      ∧ oca.useStartTimeMetric = r.cfg.useStartTimeMetric
      ∧ oca.startTimeMetricRegex = r.cfg.startTimeMetricRegex := by
  rcases b with ⟨d, s⟩
  cases d with
  | some e => cases h
  | none =>
      cases s <;> cases hu : r.cfg.useStartTimeMetric <;>
        simp [pReceiver.Start, hu]

/-- Witness for C4: on the sample receiver (side-table mode) the jobs map
is constructed with the two-minute horizon. -/
theorem Start_startTimeStrategy_witness :
    (sampleReceiver.Start Ctx.background 3 ⟨none, none⟩).jobsMap
      = some (NewJobsMap (2 * timeMinute)) := by
  have h := (Start_startTimeStrategy sampleReceiver Ctx.background 3 ⟨none, none⟩ rfl).1
  simpa [sampleReceiver, sampleConfig, newPrometheusReceiver] using h

/-- Claim C5: after a successful `Start`, `Shutdown` invokes the stored
cancel function exactly once and returns nil without touching the
receiver state (it takes no input from the background loops, so it does
not wait on them); a second `Shutdown` on the resulting state behaves
identically — no panic, no error. -/
theorem Shutdown_after_Start (r : pReceiver) (c : Ctx) (t : Nat)
    (b : SubsystemBehavior) (h : (r.Start c t b).ret = none) :
    ((r.Start c t b).receiver).Shutdown
        = some ([t], none, (r.Start c t b).receiver)
  ∧ shutdownTwice ((r.Start c t b).receiver)
        = some ([t], none, (r.Start c t b).receiver) := by
  have hr := Start_receiver_eq r c t b
  constructor
  · rw [hr]
    rfl
  · rw [hr]
    rfl

/-- Witness for C5 at a concrete started receiver. -/
theorem Shutdown_after_Start_witness :
    ((sampleReceiver.Start Ctx.background 7 ⟨none, none⟩).receiver).Shutdown
      = some ([7], none, (sampleReceiver.Start Ctx.background 7 ⟨none, none⟩).receiver) :=
  (Shutdown_after_Start sampleReceiver Ctx.background 7 ⟨none, none⟩ rfl).1

/-- Counterexample to claim C7 as stated: on a successful `Start`, the
discovery run loop is launched (a background task) strictly before the
scrape `ApplyConfig` call occurs, so the two `ApplyConfig` calls do not
both complete before the first background task is launched. -/
theorem discoveryLoop_launched_before_scrape_applyConfig :
    ((sampleReceiver.Start Ctx.background 0 ⟨none, none⟩).trace).indexOf
        StartEvent.launchDiscoveryLoop
      < ((sampleReceiver.Start Ctx.background 0 ⟨none, none⟩).trace).indexOf
        StartEvent.applyScrapeConfig := by
  decide

/-- Claim C7 (amended): on a successful `Start`, the discovery
`ApplyConfig` completes before any background task is launched and the
scrape `ApplyConfig` completes before the scrape loop is launched, but
the discovery run loop is launched before the scrape `ApplyConfig`; the
discovery run loop is launched strictly before the OpenCensus store and
the scrape manager are constructed and the scrape loop is launched with
the discovery manager's sync stream. -/
theorem Start_launch_ordering (r : pReceiver) (c : Ctx) (t : Nat)
    (b : SubsystemBehavior) (h : (r.Start c t b).ret = none) :
    (((r.Start c t b).trace).indexOf StartEvent.applyDiscoveryConfig
        < ((r.Start c t b).trace).indexOf StartEvent.launchDiscoveryLoop)
  ∧ (((r.Start c t b).trace).indexOf StartEvent.launchDiscoveryLoop
        < ((r.Start c t b).trace).indexOf StartEvent.constructOcaStore)
  ∧ (((r.Start c t b).trace).indexOf StartEvent.constructOcaStore
        < ((r.Start c t b).trace).indexOf StartEvent.constructScrapeManager)
  ∧ (((r.Start c t b).trace).indexOf StartEvent.constructScrapeManager
        < ((r.Start c t b).trace).indexOf StartEvent.applyScrapeConfig)
  ∧ (((r.Start c t b).trace).indexOf StartEvent.applyScrapeConfig
        < ((r.Start c t b).trace).indexOf StartEvent.launchScrapeLoop)
  ∧ (r.Start c t b).scrapeSyncStream
        = some (DiscoveryManager.mk (Ctx.withCancel Ctx.background t)).syncCh := by
  rcases b with ⟨d, s⟩
  cases d with
  | some e => simp [pReceiver.Start] at h
  | none =>
      cases s with
      | some e => simp [pReceiver.Start] at h
      | none =>
          have htr : (r.Start c t ⟨none, none⟩).trace =
              [StartEvent.storeCancelFunc, StartEvent.injectJobLabels,
               StartEvent.constructDiscoveryManager, StartEvent.applyDiscoveryConfig,
               StartEvent.launchDiscoveryLoop, StartEvent.constructOcaStore,
               StartEvent.constructScrapeManager, StartEvent.applyScrapeConfig,
               StartEvent.launchScrapeLoop] := rfl
          refine ⟨?_, ?_, ?_, ?_, ?_, rfl⟩ <;> rw [htr] <;> decide

/-- Witness for C7 (amended) at a concrete successful start. -/
theorem Start_launch_ordering_witness :
    ((sampleReceiver.Start Ctx.background 0 ⟨none, none⟩).trace).indexOf
        StartEvent.applyDiscoveryConfig
      < ((sampleReceiver.Start Ctx.background 0 ⟨none, none⟩).trace).indexOf
        StartEvent.launchDiscoveryLoop :=
  (Start_launch_ordering sampleReceiver Ctx.background 0 ⟨none, none⟩ rfl).1

/-- Claim C9: `Start` is not idempotent on the job configurations — each
call appends one more synthetic job-name rule in place, so after the
calls described by `params` (any mix of successful and failed starts,
e.g. retries after a configuration error) every job carries one copy of
the rule per call. -/
theorem Start_not_idempotent (params : List (Ctx × Nat × SubsystemBehavior))
    (r : pReceiver) :
    (iterateStart r params).cfg.prometheusConfig.scrapeConfigs
      = r.cfg.prometheusConfig.scrapeConfigs.map fun sc =>
          { sc with relabelConfigs :=
              sc.relabelConfigs
                ++ List.replicate params.length (jobNameRelabelRule sc.jobName) } := by
  induction params generalizing r with
  | nil =>
      simp only [iterateStart, List.length_nil, List.replicate_zero, List.append_nil]
      exact (List.map_id _).symm
  | cons p rest ih =>
      rcases p with ⟨c, t, b⟩
      simp only [iterateStart, List.length_cons]
      rw [ih, Start_receiver_eq]
      show (injectJobNameRules r.cfg.prometheusConfig.scrapeConfigs).map _ = _
      rw [injectJobNameRules, List.map_map]
      apply List.map_congr_left
      intro sc _
      simp [Function.comp, List.append_assoc, List.replicate_succ]

/-- Claim C10: the OpenCensus store is constructed with the
caller-supplied context `c` passed to `Start`, not the internally
derived cancellable context: firing the stored cancel token (what
`Shutdown` does) never changes the store context's cancellation status
when the token is fresh, while it does cancel the discovery context. -/
theorem ocaStore_uses_caller_context (r : pReceiver) (c : Ctx) (t : Nat)
    (b : SubsystemBehavior) (h : b.discoveryApplyErr = none) :
    ∃ oca : OcaStoreArgs, (r.Start c t b).ocaStore = some oca
      ∧ oca.ctx = c
      ∧ (c.tokens.contains t = false →
          ∀ fired : List Nat, oca.ctx.isCancelled (t :: fired) = oca.ctx.isCancelled fired)
      ∧ ((r.Start c t b).discoveryCtx).isCancelled [t] = true := by
  rcases b with ⟨d, s⟩
  cases d with
  | some e => cases h
  | none =>
      cases s <;>
        exact ⟨_, rfl, rfl,
          fun hc fired => Ctx.isCancelled_cons_of_not_mem c t hc fired,
          by simp [pReceiver.Start, Ctx.isCancelled]⟩

/-- Witness for C10: with caller context carrying token 5 and fresh
token 9, the store context is the caller context and firing token 9
leaves it uncancelled. -/
theorem ocaStore_uses_caller_context_witness :
    ∃ oca : OcaStoreArgs,
      (sampleReceiver.Start (Ctx.withCancel Ctx.background 5) 9 ⟨none, none⟩).ocaStore
          = some oca
      ∧ oca.ctx = Ctx.withCancel Ctx.background 5
      ∧ oca.ctx.isCancelled [9] = oca.ctx.isCancelled [] := by
  obtain ⟨oca, h1, h2, h3, _⟩ :=
    ocaStore_uses_caller_context sampleReceiver (Ctx.withCancel Ctx.background 5) 9
      ⟨none, none⟩ rfl
  exact ⟨oca, h1, h2, h3 (by decide) []⟩
